import Mathlib

/-!
Shallow embedding of the multi-year average cache-and-compute layer of
src/api/climate_api.py: the single-key resolver endpoint
(get_multi_year_average), the bulk orchestrator endpoint
(get_multi_year_average_all_regions), and the helpers they call
(get_cached_average, compute_average, store_computed_average,
get_all_cached_averages, compute_all_averages).

Modelling choices:
* the climate_data table is a list of rows (region_id, metric_id,
  scenario_id, year, value); value is an Option because the column is
  nullable and the SQL filters on value IS NOT NULL;
* the climate_averages table, whose key tuple (region_id, metric_id,
  scenario_id, start_year, end_year) carries a uniqueness constraint
  (ON CONFLICT ... DO UPDATE), is a function from keys to Option
  records — at most one live record per key, exactly the invariant the
  constraint enforces;
* SQL numerics and Python floats are modelled as rationals, so the
  arithmetic mean is exact;
* CURRENT_TIMESTAMP is an abstract tick (a Nat) carried by the database
  state; every write performed by one request uses the tick current
  when the request runs;
* FastAPI rejects start_year or end_year outside the declared bounds
  [1991, 2100] before the handler body runs (HTTP 422), and the handler
  body itself rejects start_year > end_year (HTTP 400); both are
  client-error rejections of the year range that happen before any
  access to the tables, and both are modelled by the invalidRange
  error;
* HTTP 404 responses raised by the handlers are modelled by notFound;
* metric_code and scenario_code lookup against the in-process
  reference-data cache is plumbing outside the claims, so handlers take
  metric_id and scenario_id directly;
* convert_to_american_units acts on response values only when the
  american flag is set; its numeric part is supplied to the handler as
  an abstract function on rationals, so every theorem quantifies over
  all possible conversions.
-/

/-- One row of the climate_data table. -/
structure Sample where
  region_id : Int
  metric_id : Int
  scenario_id : Int
  year : Int
  value : Option ℚ
deriving DecidableEq, Repr

/-- The key tuple of the climate_averages table, carrying the
uniqueness constraint. -/
structure AvgKey where
  region_id : Int
  metric_id : Int
  scenario_id : Int
  start_year : Int
  end_year : Int
deriving DecidableEq, Repr

/-- The payload of one climate_averages row. -/
structure AvgRecord where
  avg_value : ℚ
  data_points_count : Nat
  computed_at : Nat
deriving DecidableEq, Repr

/-- The climate_averages table: at most one record per key. -/
abbrev Store := AvgKey → Option AvgRecord

/-- HTTP error outcomes of the two endpoints. invalidRange covers both
the FastAPI 422 rejection of a bound outside [1991, 2100] and the
handler's 400 rejection of start_year > end_year; notFound is 404. -/
inductive ApiError where
  | invalidRange : ApiError
  | notFound : ApiError
deriving DecidableEq, Repr

/-- Database state seen by one request: the raw time-series table, the
averages table, and the current clock tick. -/
structure DB where
  climate_data : List Sample
  climate_averages : Store
  now : Nat

/-- Numeric part of convert_to_american_units, applied only when the
american flag is set. -/
def applyConv (american : Bool) (conv : ℚ → ℚ) (x : ℚ) : ℚ :=
  if american then conv x else x

/-- get_cached_average: point SELECT on climate_averages by the full
key; no side effects. -/
def get_cached_average (st : Store) (k : AvgKey) : Option AvgRecord :=
  st k

/-- store_computed_average: INSERT ... ON CONFLICT (key) DO UPDATE,
replacing avg_value, data_points_count and computed_at. -/
def store_computed_average (st : Store) (k : AvgKey) (avg_value : ℚ)
    (data_points_count : Nat) (now : Nat) : Store :=
  fun k2 => if k2 = k then some ⟨avg_value, data_points_count, now⟩ else st k2

/-- get_all_cached_averages: SELECT on climate_averages filtered by
(metric_id, scenario_id, start_year, end_year), returned as a mapping
region_id to record. Under the key uniqueness constraint this is the
point lookup at the key completed with each region_id. -/
def get_all_cached_averages (st : Store) (metric_id scenario_id : Int)
    (start_year end_year : Int) : Int → Option AvgRecord :=
  fun region_id => st ⟨region_id, metric_id, scenario_id, start_year, end_year⟩

/-- The WHERE clause of the yearly_data CTE in compute_average: row
matches the key, year BETWEEN start_year AND end_year, value IS NOT
NULL. -/
def rowMatches (region_id metric_id scenario_id start_year end_year : Int)
    (cd : Sample) : Bool :=
  decide (cd.region_id = region_id ∧ cd.metric_id = metric_id ∧
    cd.scenario_id = scenario_id ∧ start_year ≤ cd.year ∧
    cd.year ≤ end_year ∧ cd.value.isSome)

/-- compute_average: AVG(value) and COUNT(*) over the eligible rows;
the Python wrapper returns None exactly when the row set is empty
(AVG is NULL and COUNT is 0 there). -/
def compute_average (samples : List Sample)
    (region_id metric_id scenario_id start_year end_year : Int) :
    Option (ℚ × Nat) :=
  let yearly := samples.filter
    (rowMatches region_id metric_id scenario_id start_year end_year)
  if yearly.isEmpty then none
  else some ((yearly.filterMap (·.value)).sum / (yearly.length : ℚ), yearly.length)

/-- The WHERE clause of the yearly_data CTE in compute_all_averages:
same as rowMatches but without the region restriction. -/
def rowMatchesAll (metric_id scenario_id start_year end_year : Int)
    (cd : Sample) : Bool :=
  decide (cd.metric_id = metric_id ∧ cd.scenario_id = scenario_id ∧
    start_year ≤ cd.year ∧ cd.year ≤ end_year ∧ cd.value.isSome)

/-- compute_all_averages: the same aggregation GROUP BY region_id, one
entry per distinct region_id among the eligible rows (HAVING COUNT > 0
is vacuous since every group comes from at least one row). -/
def compute_all_averages (samples : List Sample)
    (metric_id scenario_id start_year end_year : Int) :
    List (Int × ℚ × Nat) :=
  let yearly := samples.filter
    (rowMatchesAll metric_id scenario_id start_year end_year)
  ((yearly.map (·.region_id)).dedup).map (fun r =>
    let rows := yearly.filter (fun cd => cd.region_id = r)
    (r, (rows.filterMap (·.value)).sum / (rows.length : ℚ), rows.length))

/-- Response body of the single-key endpoint (the fields the claims
speak about). -/
structure SingleResp where
  average_value : ℚ
  data_points_count : Nat
  cached : Bool
  computed_at : Nat
deriving DecidableEq, Repr

/-- Whether the year range passes the FastAPI Query bounds
ge=1991, le=2100 on both start_year and end_year. -/
def rangeWithinBounds (start_year end_year : Int) : Prop :=
  1991 ≤ start_year ∧ start_year ≤ 2100 ∧ 1991 ≤ end_year ∧ end_year ≤ 2100

instance (sy ey : Int) : Decidable (rangeWithinBounds sy ey) := by
  unfold rangeWithinBounds; infer_instance

/-- The single-key endpoint get_multi_year_average. Returns the HTTP
outcome together with the climate_averages table after the request. -/
def get_multi_year_average (db : DB)
    (region_id metric_id scenario_id : Int) (start_year end_year : Int)
    (force_recompute american : Bool) (conv : ℚ → ℚ) :
    Except ApiError SingleResp × Store :=
  if ¬ rangeWithinBounds start_year end_year then
    (.error .invalidRange, db.climate_averages)
  else if start_year > end_year then
    (.error .invalidRange, db.climate_averages)
  else
    let key : AvgKey := ⟨region_id, metric_id, scenario_id, start_year, end_year⟩
    let cached_result :=
      if force_recompute then none
      else get_cached_average db.climate_averages key
    match cached_result with
    | some rec =>
        (.ok ⟨applyConv american conv rec.avg_value, rec.data_points_count,
              true, rec.computed_at⟩,
         db.climate_averages)
    | none =>
        match compute_average db.climate_data region_id metric_id scenario_id
            start_year end_year with
        | none => (.error .notFound, db.climate_averages)
        | some (avg_value, data_points_count) =>
            let st2 := store_computed_average db.climate_averages key
              avg_value data_points_count db.now
            let computed_at :=
              match st2 key with
              | some r2 => r2.computed_at
              | none => 0
            (.ok ⟨applyConv american conv avg_value, data_points_count,
                  false, computed_at⟩,
             st2)

/-- One entry of the bulk response data list. -/
structure BulkDataPoint where
  region_id : Int
  average_value : ℚ
  data_points_count : Nat
deriving DecidableEq, Repr

/-- The summary dictionary of the bulk response. -/
structure Summary where
  min : ℚ
  max : ℚ
  mean : ℚ
  count : Nat
deriving DecidableEq, Repr

/-- Response body of the bulk endpoint. -/
structure BulkResp where
  data : List BulkDataPoint
  summary : Option Summary
  cached_count : Nat
  computed_count : Nat
deriving DecidableEq, Repr

/-- The region filter test: skip region_id when region_ids is given and
does not contain it. -/
def keepRegion (region_ids : Option (List Int)) (r : Int) : Bool :=
  match region_ids with
  | none => true
  | some l => decide (r ∈ l)

/-- Loop state of the merge loop of the bulk endpoint. -/
structure MergeAcc where
  data_points : List BulkDataPoint
  regions_to_cache : List (Int × ℚ × Nat)
  cached_count : Nat
  computed_count : Nat
deriving Repr

/-- One iteration of the merge loop: skip filtered-out regions, serve
from the cached mapping when a record is present (the handler passes
the empty mapping when force_recompute is set), otherwise count the
entry as computed and queue it for persistence. -/
def mergeStep (american : Bool) (conv : ℚ → ℚ)
    (region_ids : Option (List Int)) (cached : Int → Option AvgRecord)
    (acc : MergeAcc) (e : Int × ℚ × Nat) : MergeAcc :=
  if keepRegion region_ids e.1 then
    match cached e.1 with
    | some rec =>
        { acc with
          cached_count := acc.cached_count + 1,
          data_points := acc.data_points ++
            [⟨e.1, applyConv american conv rec.avg_value, rec.data_points_count⟩] }
    | none =>
        { acc with
          computed_count := acc.computed_count + 1,
          regions_to_cache := acc.regions_to_cache ++ [(e.1, e.2.1, e.2.2)],
          data_points := acc.data_points ++
            [⟨e.1, applyConv american conv e.2.1, e.2.2⟩] }
  else acc

/-- Python min over a nonempty list (never called on the empty list). -/
def listMin (l : List ℚ) : ℚ :=
  match l with
  | [] => 0
  | x :: xs => xs.foldl min x

/-- Python max over a nonempty list (never called on the empty list). -/
def listMax (l : List ℚ) : ℚ :=
  match l with
  | [] => 0
  | x :: xs => xs.foldl max x

/-- The summary block of the bulk endpoint. -/
def mkSummary (values : List ℚ) : Summary :=
  ⟨listMin values, listMax values, values.sum / (values.length : ℚ), values.length⟩

/-- The bulk endpoint get_multi_year_average_all_regions. Returns the
HTTP outcome together with the climate_averages table after the
request. -/
def get_multi_year_average_all_regions (db : DB)
    (metric_id scenario_id : Int) (start_year end_year : Int)
    (region_ids : Option (List Int))
    (force_recompute include_summary american : Bool) (conv : ℚ → ℚ) :
    Except ApiError BulkResp × Store :=
  if ¬ rangeWithinBounds start_year end_year then
    (.error .invalidRange, db.climate_averages)
  else if start_year > end_year then
    (.error .invalidRange, db.climate_averages)
  else
    let cached_data : Int → Option AvgRecord :=
      if force_recompute then fun _ => none
      else get_all_cached_averages db.climate_averages metric_id scenario_id
        start_year end_year
    let computed_data := compute_all_averages db.climate_data metric_id
      scenario_id start_year end_year
    if computed_data.isEmpty then (.error .notFound, db.climate_averages)
    else
      let acc := computed_data.foldl
        (mergeStep american conv region_ids cached_data) ⟨[], [], 0, 0⟩
      let st2 := acc.regions_to_cache.foldl
        (fun st e =>
          store_computed_average st
            ⟨e.1, metric_id, scenario_id, start_year, end_year⟩
            e.2.1 e.2.2 db.now)
        db.climate_averages
      if acc.data_points.isEmpty then (.error .notFound, st2)
      else
        let summary :=
          if include_summary then
            some (mkSummary (acc.data_points.map (·.average_value)))
          else none
        (.ok ⟨acc.data_points, summary, acc.cached_count, acc.computed_count⟩,
         st2)

/-- Eligible values of a key, defined from the words of the spec: all
samples for the key with year in [start_year, end_year] and value
present. Used only to compare the compute engine against the spec. -/
def specEligibleValues (samples : List Sample)
    (region_id metric_id scenario_id start_year end_year : Int) : List ℚ :=
  (samples.filter (fun cd => decide (cd.region_id = region_id ∧
    cd.metric_id = metric_id ∧ cd.scenario_id = scenario_id ∧
    start_year ≤ cd.year ∧ cd.year ≤ end_year ∧ cd.value ≠ none))).filterMap
    (·.value)

/-- The cached mapping the bulk endpoint works with: the bulk lookup,
or the empty mapping when force_recompute is set. -/
def bulkCached (db : DB) (metric_id scenario_id start_year end_year : Int)
    (force_recompute : Bool) : Int → Option AvgRecord :=
  if force_recompute then fun _ => none
  else get_all_cached_averages db.climate_averages metric_id scenario_id
    start_year end_year

/-- Final state of the merge loop of the bulk endpoint. -/
def bulkAcc (db : DB) (metric_id scenario_id start_year end_year : Int)
    (region_ids : Option (List Int)) (force_recompute american : Bool)
    (conv : ℚ → ℚ) : MergeAcc :=
  (compute_all_averages db.climate_data metric_id scenario_id start_year
    end_year).foldl
    (mergeStep american conv region_ids
      (bulkCached db metric_id scenario_id start_year end_year force_recompute))
    ⟨[], [], 0, 0⟩

/-- State of the climate_averages table after the persistence loop of
the bulk endpoint. -/
def bulkStore (db : DB) (metric_id scenario_id start_year end_year : Int)
    (region_ids : Option (List Int)) (force_recompute american : Bool)
    (conv : ℚ → ℚ) : Store :=
  (bulkAcc db metric_id scenario_id start_year end_year region_ids
    force_recompute american conv).regions_to_cache.foldl
    (fun st e =>
      store_computed_average st
        ⟨e.1, metric_id, scenario_id, start_year, end_year⟩ e.2.1 e.2.2 db.now)
    db.climate_averages

/-- Fixture: a small climate_data table. Region 1 has two eligible
samples (average 9/2) and one NULL sample for metric 10 / scenario 20,
region 2 has one, region 3 only has data under metric 11. -/
def sampleRows : List Sample :=
  [⟨1, 10, 20, 2000, some 3⟩, ⟨1, 10, 20, 2001, some 6⟩,
   ⟨1, 10, 20, 2002, none⟩, ⟨2, 10, 20, 2000, some 8⟩,
   ⟨3, 11, 20, 2000, some 5⟩]

/-- Fixture: the empty climate_averages table. -/
def emptyStore : Store := fun _ => none

/-- Fixture: a climate_averages table holding one record, for region 1
over 2000-2005, with a value that differs from the raw data. -/
def oneRecStore : Store := fun k =>
  if k = ⟨1, 10, 20, 2000, 2005⟩ then some ⟨100, 9, 3⟩ else none

/-- Fixture: a climate_averages table holding records for regions 1
and 2 over 2000-2005. -/
def twoRecStore : Store := fun k =>
  if k = ⟨1, 10, 20, 2000, 2005⟩ then some ⟨100, 9, 3⟩
  else if k = ⟨2, 10, 20, 2000, 2005⟩ then some ⟨200, 3, 4⟩
  else none

theorem single_cache_hit (db : DB) (r m s sy ey : Int) (am : Bool)
    (conv : ℚ → ℚ) (rec : AvgRecord)
    (hbnd : rangeWithinBounds sy ey) (hle : sy ≤ ey)
    (hget : db.climate_averages ⟨r, m, s, sy, ey⟩ = some rec) :
    get_multi_year_average db r m s sy ey false am conv =
      (.ok ⟨applyConv am conv rec.avg_value, rec.data_points_count, true,
            rec.computed_at⟩, db.climate_averages) := by
  unfold get_multi_year_average
  rw [if_neg (not_not_intro hbnd), if_neg (not_lt.mpr hle)]
  simp only [get_cached_average, Bool.false_eq_true, if_false, hget]

theorem single_compute_store (db : DB) (r m s sy ey : Int)
    (force am : Bool) (conv : ℚ → ℚ) (v : ℚ) (c : Nat)
    (hbnd : rangeWithinBounds sy ey) (hle : sy ≤ ey)
    (hmiss : force = true ∨ db.climate_averages ⟨r, m, s, sy, ey⟩ = none)
    (hcomp : compute_average db.climate_data r m s sy ey = some (v, c)) :
    get_multi_year_average db r m s sy ey force am conv =
      (.ok ⟨applyConv am conv v, c, false, db.now⟩,
       store_computed_average db.climate_averages ⟨r, m, s, sy, ey⟩ v c db.now) := by
  unfold get_multi_year_average
  rw [if_neg (not_not_intro hbnd), if_neg (not_lt.mpr hle)]
  have hcr : (if force = true then none
      else get_cached_average db.climate_averages ⟨r, m, s, sy, ey⟩) =
      (none : Option AvgRecord) := by
    rcases hmiss with h | h
    · rw [if_pos h]
    · unfold get_cached_average
      split
      · rfl
      · exact h
  simp only [hcr, hcomp, store_computed_average]
  simp

theorem single_compute_nodata (db : DB) (r m s sy ey : Int)
    (force am : Bool) (conv : ℚ → ℚ)
    (hbnd : rangeWithinBounds sy ey) (hle : sy ≤ ey)
    (hmiss : force = true ∨ db.climate_averages ⟨r, m, s, sy, ey⟩ = none)
    (hcomp : compute_average db.climate_data r m s sy ey = none) :
    get_multi_year_average db r m s sy ey force am conv =
      (.error .notFound, db.climate_averages) := by
  unfold get_multi_year_average
  rw [if_neg (not_not_intro hbnd), if_neg (not_lt.mpr hle)]
  have hcr : (if force = true then none
      else get_cached_average db.climate_averages ⟨r, m, s, sy, ey⟩) =
      (none : Option AvgRecord) := by
    rcases hmiss with h | h
    · rw [if_pos h]
    · unfold get_cached_average
      split
      · rfl
      · exact h
  simp only [hcr, hcomp]

theorem single_invalid_range (db : DB) (r m s sy ey : Int)
    (force am : Bool) (conv : ℚ → ℚ)
    (h : ¬ (rangeWithinBounds sy ey ∧ sy ≤ ey)) :
    get_multi_year_average db r m s sy ey force am conv =
      (.error .invalidRange, db.climate_averages) := by
  unfold get_multi_year_average
  by_cases hbnd : rangeWithinBounds sy ey
  · have hgt : sy > ey := by
      rcases not_and_or.mp h with h1 | h2
      · exact absurd hbnd h1
      · exact lt_of_not_le h2
    rw [if_neg (not_not_intro hbnd), if_pos hgt]
  · rw [if_pos hbnd]

theorem bulk_invalid_range (db : DB) (m s sy ey : Int)
    (filt : Option (List Int)) (force inc am : Bool) (conv : ℚ → ℚ)
    (h : ¬ (rangeWithinBounds sy ey ∧ sy ≤ ey)) :
    get_multi_year_average_all_regions db m s sy ey filt force inc am conv =
      (.error .invalidRange, db.climate_averages) := by
  unfold get_multi_year_average_all_regions
  by_cases hbnd : rangeWithinBounds sy ey
  · have hgt : sy > ey := by
      rcases not_and_or.mp h with h1 | h2
      · exact absurd hbnd h1
      · exact lt_of_not_le h2
    rw [if_neg (not_not_intro hbnd), if_pos hgt]
  · rw [if_pos hbnd]

theorem mergeStep_counts (am : Bool) (conv : ℚ → ℚ)
    (filt : Option (List Int)) (cached : Int → Option AvgRecord)
    (acc : MergeAcc) (e : Int × ℚ × Nat) :
    (mergeStep am conv filt cached acc e).cached_count +
      (mergeStep am conv filt cached acc e).computed_count +
      acc.data_points.length =
    acc.cached_count + acc.computed_count +
      (mergeStep am conv filt cached acc e).data_points.length := by
  unfold mergeStep
  split
  · cases cached e.1 <;> simp <;> omega
  · rfl

theorem mergeFold_counts (am : Bool) (conv : ℚ → ℚ)
    (filt : Option (List Int)) (cached : Int → Option AvgRecord)
    (l : List (Int × ℚ × Nat)) : ∀ acc : MergeAcc,
    (l.foldl (mergeStep am conv filt cached) acc).cached_count +
      (l.foldl (mergeStep am conv filt cached) acc).computed_count +
      acc.data_points.length =
    acc.cached_count + acc.computed_count +
      (l.foldl (mergeStep am conv filt cached) acc).data_points.length := by
  induction l with
  | nil => intro acc; rfl
  | cons e t ih =>
    intro acc
    simp only [List.foldl_cons]
    have h1 := mergeStep_counts am conv filt cached acc e
    have h2 := ih (mergeStep am conv filt cached acc e)
    omega

theorem mergeStep_regions (am : Bool) (conv : ℚ → ℚ)
    (filt : Option (List Int)) (cached : Int → Option AvgRecord)
    (acc : MergeAcc) (e : Int × ℚ × Nat) :
    (mergeStep am conv filt cached acc e).data_points.map (·.region_id) =
      acc.data_points.map (·.region_id) ++
        (if keepRegion filt e.1 then [e.1] else []) := by
  unfold mergeStep
  split
  · rename_i hkeep
    cases cached e.1 <;> simp [hkeep]
  · rename_i hkeep
    simp [Bool.not_eq_true] at hkeep
    simp [hkeep]

theorem mergeFold_regions (am : Bool) (conv : ℚ → ℚ)
    (filt : Option (List Int)) (cached : Int → Option AvgRecord)
    (l : List (Int × ℚ × Nat)) : ∀ acc : MergeAcc,
    (l.foldl (mergeStep am conv filt cached) acc).data_points.map (·.region_id) =
      acc.data_points.map (·.region_id) ++
        (l.map (·.1)).filter (keepRegion filt) := by
  induction l with
  | nil => intro acc; simp
  | cons e t ih =>
    intro acc
    simp only [List.foldl_cons, List.map_cons, List.filter_cons]
    rw [ih, mergeStep_regions]
    by_cases hkeep : keepRegion filt e.1
    · simp [hkeep]
    · simp [Bool.not_eq_true] at hkeep
      simp [hkeep]

theorem mergeStep_indep (filt : Option (List Int))
    (cached : Int → Option AvgRecord) (am1 am2 : Bool) (conv1 conv2 : ℚ → ℚ)
    (acc1 acc2 : MergeAcc) (e : Int × ℚ × Nat)
    (h1 : acc1.regions_to_cache = acc2.regions_to_cache)
    (h2 : acc1.cached_count = acc2.cached_count)
    (h3 : acc1.computed_count = acc2.computed_count)
    (h4 : acc1.data_points.length = acc2.data_points.length) :
    (mergeStep am1 conv1 filt cached acc1 e).regions_to_cache =
      (mergeStep am2 conv2 filt cached acc2 e).regions_to_cache ∧
    (mergeStep am1 conv1 filt cached acc1 e).cached_count =
      (mergeStep am2 conv2 filt cached acc2 e).cached_count ∧
    (mergeStep am1 conv1 filt cached acc1 e).computed_count =
      (mergeStep am2 conv2 filt cached acc2 e).computed_count ∧
    (mergeStep am1 conv1 filt cached acc1 e).data_points.length =
      (mergeStep am2 conv2 filt cached acc2 e).data_points.length := by
  unfold mergeStep
  split
  · cases cached e.1 <;> simp [h1, h2, h3, h4]
  · exact ⟨h1, h2, h3, h4⟩

theorem mergeFold_indep (filt : Option (List Int))
    (cached : Int → Option AvgRecord) (am1 am2 : Bool) (conv1 conv2 : ℚ → ℚ)
    (l : List (Int × ℚ × Nat)) : ∀ acc1 acc2 : MergeAcc,
    acc1.regions_to_cache = acc2.regions_to_cache →
    acc1.cached_count = acc2.cached_count →
    acc1.computed_count = acc2.computed_count →
    acc1.data_points.length = acc2.data_points.length →
    (l.foldl (mergeStep am1 conv1 filt cached) acc1).regions_to_cache =
      (l.foldl (mergeStep am2 conv2 filt cached) acc2).regions_to_cache ∧
    (l.foldl (mergeStep am1 conv1 filt cached) acc1).cached_count =
      (l.foldl (mergeStep am2 conv2 filt cached) acc2).cached_count ∧
    (l.foldl (mergeStep am1 conv1 filt cached) acc1).computed_count =
      (l.foldl (mergeStep am2 conv2 filt cached) acc2).computed_count ∧
    (l.foldl (mergeStep am1 conv1 filt cached) acc1).data_points.length =
      (l.foldl (mergeStep am2 conv2 filt cached) acc2).data_points.length := by
  induction l with
  | nil => intro acc1 acc2 h1 h2 h3 h4; exact ⟨h1, h2, h3, h4⟩
  | cons e t ih =>
    intro acc1 acc2 h1 h2 h3 h4
    simp only [List.foldl_cons]
    obtain ⟨g1, g2, g3, g4⟩ :=
      mergeStep_indep filt cached am1 am2 conv1 conv2 acc1 acc2 e h1 h2 h3 h4
    exact ih _ _ g1 g2 g3 g4

theorem mergeFold_skip (am : Bool) (conv : ℚ → ℚ)
    (filt : Option (List Int)) (cached : Int → Option AvgRecord)
    (l : List (Int × ℚ × Nat))
    (h : ∀ e ∈ l, keepRegion filt e.1 = false) : ∀ acc : MergeAcc,
    l.foldl (mergeStep am conv filt cached) acc = acc := by
  induction l with
  | nil => intro acc; rfl
  | cons e t ih =>
    intro acc
    simp only [List.foldl_cons]
    have hstep : mergeStep am conv filt cached acc e = acc := by
      unfold mergeStep
      rw [h e (by simp)]
      simp
    rw [hstep]
    exact ih (fun e2 he2 => h e2 (by simp [he2])) acc

theorem bulk_computed_empty (db : DB) (m s sy ey : Int)
    (filt : Option (List Int)) (force inc am : Bool) (conv : ℚ → ℚ)
    (hbnd : rangeWithinBounds sy ey) (hle : sy ≤ ey)
    (hemp : compute_all_averages db.climate_data m s sy ey = []) :
    get_multi_year_average_all_regions db m s sy ey filt force inc am conv =
      (.error .notFound, db.climate_averages) := by
  unfold get_multi_year_average_all_regions
  rw [if_neg (not_not_intro hbnd), if_neg (not_lt.mpr hle)]
  simp only [hemp, List.isEmpty_nil, if_true]

theorem bulk_run_eq (db : DB) (m s sy ey : Int)
    (filt : Option (List Int)) (force inc am : Bool) (conv : ℚ → ℚ)
    (hbnd : rangeWithinBounds sy ey) (hle : sy ≤ ey)
    (hne : compute_all_averages db.climate_data m s sy ey ≠ []) :
    get_multi_year_average_all_regions db m s sy ey filt force inc am conv =
      (if (bulkAcc db m s sy ey filt force am conv).data_points.isEmpty then
        .error .notFound
       else
        .ok ⟨(bulkAcc db m s sy ey filt force am conv).data_points,
             (if inc then
               some (mkSummary ((bulkAcc db m s sy ey filt force am
                 conv).data_points.map (·.average_value)))
              else none),
             (bulkAcc db m s sy ey filt force am conv).cached_count,
             (bulkAcc db m s sy ey filt force am conv).computed_count⟩,
       bulkStore db m s sy ey filt force am conv) := by
  unfold get_multi_year_average_all_regions bulkStore bulkAcc bulkCached
  rw [if_neg (not_not_intro hbnd), if_neg (not_lt.mpr hle)]
  rw [if_neg (by simpa [List.isEmpty_iff] using hne)]
  dsimp only
  split <;> (split <;> rfl)

theorem specEligibleValues_eq (samples : List Sample) (r m s sy ey : Int) :
    specEligibleValues samples r m s sy ey =
      (samples.filter (rowMatches r m s sy ey)).filterMap (·.value) := by
  unfold specEligibleValues
  congr 1
  apply List.filter_congr
  intro cd _
  simp [rowMatches, Option.isSome_iff_ne_none]

theorem filterMap_value_length (l : List Sample)
    (h : ∀ cd ∈ l, cd.value.isSome) :
    (l.filterMap (·.value)).length = l.length := by
  induction l with
  | nil => rfl
  | cons cd t ih =>
    have hcd : cd.value.isSome := h cd (by simp)
    obtain ⟨v, hv⟩ := Option.isSome_iff_exists.mp hcd
    simp only [List.filterMap_cons, hv, List.length_cons]
    rw [ih (fun cd2 hcd2 => h cd2 (by simp [hcd2]))]

theorem filter_rowMatches_isSome (samples : List Sample) (r m s sy ey : Int) :
    ∀ cd ∈ samples.filter (rowMatches r m s sy ey), cd.value.isSome := by
  intro cd hcd
  have := (List.mem_filter.mp hcd).2
  simp [rowMatches] at this
  exact this.2.2.2.2.2

theorem specEligibleValues_length (samples : List Sample) (r m s sy ey : Int) :
    (specEligibleValues samples r m s sy ey).length =
      (samples.filter (rowMatches r m s sy ey)).length := by
  rw [specEligibleValues_eq]
  exact filterMap_value_length _ (filter_rowMatches_isSome samples r m s sy ey)

theorem compute_average_eq_none_iff (samples : List Sample) (r m s sy ey : Int) :
    compute_average samples r m s sy ey = none ↔
      specEligibleValues samples r m s sy ey = [] := by
  unfold compute_average
  constructor
  · intro h
    by_cases hemp : (samples.filter (rowMatches r m s sy ey)).isEmpty
    · rw [← List.length_eq_zero, specEligibleValues_length]
      exact List.length_eq_zero.mpr (List.isEmpty_iff.mp hemp)
    · simp only [hemp, if_false, Bool.false_eq_true] at h
      exact absurd h (by simp)
  · intro h
    have hlen : (samples.filter (rowMatches r m s sy ey)).length = 0 := by
      rw [← specEligibleValues_length]
      exact List.length_eq_zero.mpr h
    simp [List.length_eq_zero.mp hlen]

theorem compute_average_eq_spec (samples : List Sample) (r m s sy ey : Int)
    (h : specEligibleValues samples r m s sy ey ≠ []) :
    compute_average samples r m s sy ey =
      some ((specEligibleValues samples r m s sy ey).sum /
              ((specEligibleValues samples r m s sy ey).length : ℚ),
            (specEligibleValues samples r m s sy ey).length) := by
  unfold compute_average
  have hne : ¬ (samples.filter (rowMatches r m s sy ey)).isEmpty := by
    intro hemp
    apply h
    rw [← List.length_eq_zero, specEligibleValues_length]
    exact List.length_eq_zero.mpr (List.isEmpty_iff.mp hemp)
  simp only [hne, if_false, Bool.false_eq_true]
  rw [specEligibleValues_eq,
    filterMap_value_length _ (filter_rowMatches_isSome samples r m s sy ey)]

theorem filter_region (samples : List Sample) (m s sy ey r : Int) :
    (samples.filter (rowMatchesAll m s sy ey)).filter
      (fun cd => decide (cd.region_id = r)) =
      samples.filter (rowMatches r m s sy ey) := by
  rw [List.filter_filter]
  apply List.filter_congr
  intro cd _
  simp only [rowMatches, rowMatchesAll, Bool.and_eq_decide, decide_eq_decide]

theorem region_mem_iff (samples : List Sample) (m s sy ey r : Int) :
    r ∈ (samples.filter (rowMatchesAll m s sy ey)).map (·.region_id) ↔
      samples.filter (rowMatches r m s sy ey) ≠ [] := by
  rw [← filter_region samples m s sy ey r]
  constructor
  · rw [List.mem_map]
    rintro ⟨cd, hcd, rfl⟩
    intro hnil
    have hmem : cd ∈ (samples.filter (rowMatchesAll m s sy ey)).filter
        (fun cd2 => decide (cd2.region_id = cd.region_id)) := by
      rw [List.mem_filter]
      exact ⟨hcd, by simp⟩
    rw [hnil] at hmem
    simp at hmem
  · intro hne
    obtain ⟨cd, hcd⟩ := List.exists_mem_of_ne_nil _ hne
    rw [List.mem_filter] at hcd
    rw [List.mem_map]
    exact ⟨cd, hcd.1, by simpa using hcd.2⟩

theorem compute_all_averages_mem (samples : List Sample) (m s sy ey r : Int)
    (p : ℚ × Nat) :
    (r, p) ∈ compute_all_averages samples m s sy ey ↔
      compute_average samples r m s sy ey = some p := by
  unfold compute_all_averages compute_average
  dsimp only
  rw [List.mem_map]
  constructor
  · rintro ⟨a, ha, hfa⟩
    have ha1 : a = r := congrArg Prod.fst hfa
    subst ha1
    have hp := congrArg Prod.snd hfa
    dsimp only at hp
    rw [List.mem_dedup] at ha
    have hne := (region_mem_iff samples m s sy ey a).mp ha
    rw [if_neg (by simpa [List.isEmpty_iff] using hne)]
    rw [← hp, filter_region samples m s sy ey a]
  · intro hca
    by_cases hemp : (samples.filter (rowMatches r m s sy ey)).isEmpty
    · rw [if_pos hemp] at hca
      exact absurd hca (by simp)
    · rw [if_neg hemp] at hca
      refine ⟨r, ?_, ?_⟩
      · rw [List.mem_dedup]
        apply (region_mem_iff samples m s sy ey r).mpr
        simpa [List.isEmpty_iff] using hemp
      · rw [filter_region samples m s sy ey r]
        rw [Option.some_inj.mp hca]

theorem map_fst_pair {g : Int → ℚ × Nat} (l : List Int) :
    ((l.map (fun r => (r, g r))).map (·.1)) = l := by
  induction l with
  | nil => rfl
  | cons a t ih => simp only [List.map_cons, ih]

theorem compute_all_fst_nodup (samples : List Sample) (m s sy ey : Int) :
    ((compute_all_averages samples m s sy ey).map (·.1)).Nodup := by
  unfold compute_all_averages
  dsimp only
  rw [map_fst_pair]
  exact List.nodup_dedup _

/-- Claim C3: compute_average returns no result exactly when the key
has no eligible sample (year in range, value present); otherwise it
returns the arithmetic mean of the eligible values together with their
count; and compute_all_averages is the mapping whose domain is exactly
the regions with at least one eligible sample, each mapped to the same
pair compute_average returns for it. -/
theorem compute_engine_aggregation (samples : List Sample)
    (r m s sy ey : Int) :
    (compute_average samples r m s sy ey = none ↔
      specEligibleValues samples r m s sy ey = []) ∧
    (specEligibleValues samples r m s sy ey ≠ [] →
      compute_average samples r m s sy ey =
        some ((specEligibleValues samples r m s sy ey).sum /
                ((specEligibleValues samples r m s sy ey).length : ℚ),
              (specEligibleValues samples r m s sy ey).length)) ∧
    ((compute_all_averages samples m s sy ey).map (·.1)).Nodup ∧
    (∀ (r2 : Int) (p : ℚ × Nat),
      (r2, p) ∈ compute_all_averages samples m s sy ey ↔
        compute_average samples r2 m s sy ey = some p) :=
  ⟨compute_average_eq_none_iff samples r m s sy ey,
   compute_average_eq_spec samples r m s sy ey,
   compute_all_fst_nodup samples m s sy ey,
   fun r2 p => compute_all_averages_mem samples m s sy ey r2 p⟩

/-- Witness for C3 at the fixture table. -/
theorem compute_engine_aggregation_witness :
    specEligibleValues sampleRows 1 10 20 2000 2005 ≠ [] ∧
    compute_average sampleRows 1 10 20 2000 2005 =
      some ((specEligibleValues sampleRows 1 10 20 2000 2005).sum /
              ((specEligibleValues sampleRows 1 10 20 2000 2005).length : ℚ),
            (specEligibleValues sampleRows 1 10 20 2000 2005).length) :=
  ⟨by decide,
   (compute_engine_aggregation sampleRows 1 10 20 2000 2005).2.1 (by decide)⟩

/-- Claim C1: single-key resolution with a valid year range. On a
cache hit with force_recompute false the stored record is returned
with served_from_cache true and no store write; on a cache miss or
with force_recompute true, a successful computation is written through
the idempotent put and returned with served_from_cache false. -/
theorem single_resolution_policy (db : DB) (r m s sy ey : Int)
    (conv : ℚ → ℚ)
    (hbnd : rangeWithinBounds sy ey) (hle : sy ≤ ey) :
    (∀ rec : AvgRecord, db.climate_averages ⟨r, m, s, sy, ey⟩ = some rec →
      get_multi_year_average db r m s sy ey false false conv =
        (.ok ⟨rec.avg_value, rec.data_points_count, true, rec.computed_at⟩,
         db.climate_averages)) ∧
    (∀ (force : Bool) (v : ℚ) (c : Nat),
      (force = true ∨ db.climate_averages ⟨r, m, s, sy, ey⟩ = none) →
      compute_average db.climate_data r m s sy ey = some (v, c) →
      get_multi_year_average db r m s sy ey force false conv =
        (.ok ⟨v, c, false, db.now⟩,
         store_computed_average db.climate_averages ⟨r, m, s, sy, ey⟩ v c
           db.now)) := by
  constructor
  · intro rec hget
    simpa [applyConv] using
      single_cache_hit db r m s sy ey false conv rec hbnd hle hget
  · intro force v c hmiss hcomp
    simpa [applyConv] using
      single_compute_store db r m s sy ey force false conv v c hbnd hle
        hmiss hcomp

/-- Witness for C1: a cache hit on the one-record store and a
compute-and-store cycle on the empty store. -/
theorem single_resolution_policy_witness :
    rangeWithinBounds 2000 2005 ∧ ((2000 : Int) ≤ 2005) ∧
    oneRecStore ⟨1, 10, 20, 2000, 2005⟩ = some ⟨100, 9, 3⟩ ∧
    get_multi_year_average ⟨sampleRows, oneRecStore, 7⟩ 1 10 20 2000 2005
        false false id =
      (.ok ⟨100, 9, true, 3⟩, oneRecStore) ∧
    compute_average sampleRows 1 10 20 2000 2005 = some (9/2, 2) ∧
    get_multi_year_average ⟨sampleRows, emptyStore, 7⟩ 1 10 20 2000 2005
        false false id =
      (.ok ⟨9/2, 2, false, 7⟩,
       store_computed_average emptyStore ⟨1, 10, 20, 2000, 2005⟩ (9/2) 2 7) := by
  have hcomp : compute_average sampleRows 1 10 20 2000 2005 = some (9/2, 2) := by
    norm_num [compute_average, rowMatches, sampleRows, List.filter, List.filterMap]
  refine ⟨by decide, by decide, rfl, ?_, hcomp, ?_⟩
  · exact (single_resolution_policy ⟨sampleRows, oneRecStore, 7⟩ 1 10 20 2000
      2005 id (by decide) (by decide)).1 ⟨100, 9, 3⟩ rfl
  · exact (single_resolution_policy ⟨sampleRows, emptyStore, 7⟩ 1 10 20 2000
      2005 id (by decide) (by decide)).2 false (9/2) 2 (Or.inr rfl) hcomp

/-- Claim C7: on the single-key path, a key with no eligible samples
(and no cached record unless force_recompute is set) fails with
notFound and leaves the store untouched. -/
theorem single_no_data_not_found (db : DB) (r m s sy ey : Int)
    (force am : Bool) (conv : ℚ → ℚ)
    (hbnd : rangeWithinBounds sy ey) (hle : sy ≤ ey)
    (hempty : specEligibleValues db.climate_data r m s sy ey = [])
    (hmiss : force = true ∨ db.climate_averages ⟨r, m, s, sy, ey⟩ = none) :
    get_multi_year_average db r m s sy ey force am conv =
      (.error .notFound, db.climate_averages) :=
  single_compute_nodata db r m s sy ey force am conv hbnd hle hmiss
    ((compute_average_eq_none_iff db.climate_data r m s sy ey).mpr hempty)

/-- Witness for C7: region 5 has no samples at all. -/
theorem single_no_data_not_found_witness :
    rangeWithinBounds 2000 2005 ∧ ((2000 : Int) ≤ 2005) ∧
    specEligibleValues sampleRows 5 10 20 2000 2005 = [] ∧
    emptyStore ⟨5, 10, 20, 2000, 2005⟩ = none ∧
    get_multi_year_average ⟨sampleRows, emptyStore, 7⟩ 5 10 20 2000 2005
        false false id =
      (.error .notFound, emptyStore) :=
  ⟨by decide, by decide, by decide, rfl,
   single_no_data_not_found ⟨sampleRows, emptyStore, 7⟩ 5 10 20 2000 2005
     false false id (by decide) (by decide) (by decide) (Or.inr rfl)⟩

/-- Claim C9: a request whose year range violates the precondition
(start_year > end_year, or a bound outside [1991, 2100]) is rejected
with the invalid-range client error by both endpoints, with the
climate_averages table untouched, for every database state. -/
theorem invalid_range_before_storage (db : DB) (r m s sy ey : Int)
    (filt : Option (List Int)) (force inc am : Bool) (conv : ℚ → ℚ)
    (h : ¬ (rangeWithinBounds sy ey ∧ sy ≤ ey)) :
    get_multi_year_average db r m s sy ey force am conv =
      (.error .invalidRange, db.climate_averages) ∧
    get_multi_year_average_all_regions db m s sy ey filt force inc am conv =
      (.error .invalidRange, db.climate_averages) :=
  ⟨single_invalid_range db r m s sy ey force am conv h,
   bulk_invalid_range db m s sy ey filt force inc am conv h⟩

/-- Witness for C9 at an inverted range. -/
theorem invalid_range_before_storage_witness :
    ¬ (rangeWithinBounds 2005 2000 ∧ ((2005 : Int) ≤ 2000)) ∧
    get_multi_year_average ⟨sampleRows, oneRecStore, 7⟩ 1 10 20 2005 2000
        false false id =
      (.error .invalidRange, oneRecStore) ∧
    get_multi_year_average_all_regions ⟨sampleRows, oneRecStore, 7⟩ 10 20
        2005 2000 none false true false id =
      (.error .invalidRange, oneRecStore) :=
  ⟨by decide,
   invalid_range_before_storage ⟨sampleRows, oneRecStore, 7⟩ 1 10 20 2005
     2000 none false true false id (by decide)⟩

/-- Claim C5: resolving the same key twice with force_recompute false
and no intervening writes returns identical average_value and
data_points_count, the second call reporting served_from_cache true
and leaving the store unchanged. -/
theorem resolve_idempotent (db : DB) (r m s sy ey : Int) (am : Bool)
    (conv : ℚ → ℚ) (t2 : Nat) (resp1 : SingleResp) (st1 : Store)
    (hbnd : rangeWithinBounds sy ey) (hle : sy ≤ ey)
    (h1 : get_multi_year_average db r m s sy ey false am conv =
      (.ok resp1, st1)) :
    ∃ resp2 : SingleResp,
      get_multi_year_average ⟨db.climate_data, st1, t2⟩ r m s sy ey false
          am conv = (.ok resp2, st1) ∧
      resp2.average_value = resp1.average_value ∧
      resp2.data_points_count = resp1.data_points_count ∧
      resp2.cached = true := by
  cases hget : db.climate_averages ⟨r, m, s, sy, ey⟩ with
  | some rec =>
    rw [single_cache_hit db r m s sy ey am conv rec hbnd hle hget] at h1
    injection h1 with h1a h1b
    injection h1a with h1a
    subst h1a
    subst h1b
    refine ⟨⟨applyConv am conv rec.avg_value, rec.data_points_count, true,
      rec.computed_at⟩, ?_, rfl, rfl, rfl⟩
    exact single_cache_hit ⟨db.climate_data, db.climate_averages, t2⟩ r m s
      sy ey am conv rec hbnd hle hget
  | none =>
    cases hcomp : compute_average db.climate_data r m s sy ey with
    | none =>
      rw [single_compute_nodata db r m s sy ey false am conv hbnd hle
        (Or.inr hget) hcomp] at h1
      simp at h1
    | some vc =>
      obtain ⟨v, c⟩ := vc
      rw [single_compute_store db r m s sy ey false am conv v c hbnd hle
        (Or.inr hget) hcomp] at h1
      injection h1 with h1a h1b
      injection h1a with h1a
      subst h1a
      subst h1b
      have hget2 : store_computed_average db.climate_averages
          ⟨r, m, s, sy, ey⟩ v c db.now ⟨r, m, s, sy, ey⟩ =
          some ⟨v, c, db.now⟩ := by
        unfold store_computed_average
        simp
      refine ⟨⟨applyConv am conv v, c, true, db.now⟩, ?_, rfl, rfl, rfl⟩
      exact single_cache_hit
        ⟨db.climate_data,
         store_computed_average db.climate_averages ⟨r, m, s, sy, ey⟩ v c
           db.now, t2⟩ r m s sy ey am conv ⟨v, c, db.now⟩ hbnd hle hget2

/-- Witness for C5: first call computes and stores, second call is a
cache hit with the same value and count. -/
theorem resolve_idempotent_witness :
    rangeWithinBounds 2000 2005 ∧ ((2000 : Int) ≤ 2005) ∧
    get_multi_year_average ⟨sampleRows, emptyStore, 7⟩ 1 10 20 2000 2005
        false false id =
      (.ok ⟨9/2, 2, false, 7⟩,
       store_computed_average emptyStore ⟨1, 10, 20, 2000, 2005⟩ (9/2) 2 7) ∧
    ∃ resp2 : SingleResp,
      get_multi_year_average
          ⟨sampleRows,
           store_computed_average emptyStore ⟨1, 10, 20, 2000, 2005⟩ (9/2) 2 7,
           8⟩ 1 10 20 2000 2005 false false id =
        (.ok resp2,
         store_computed_average emptyStore ⟨1, 10, 20, 2000, 2005⟩ (9/2) 2 7) ∧
      resp2.average_value = 9/2 ∧
      resp2.data_points_count = 2 ∧
      resp2.cached = true := by
  have hcomp : compute_average sampleRows 1 10 20 2000 2005 = some (9/2, 2) := by
    norm_num [compute_average, rowMatches, sampleRows, List.filter, List.filterMap]
  have h1 : get_multi_year_average ⟨sampleRows, emptyStore, 7⟩ 1 10 20 2000
      2005 false false id =
      (.ok ⟨9/2, 2, false, 7⟩,
       store_computed_average emptyStore ⟨1, 10, 20, 2000, 2005⟩ (9/2) 2 7) :=
    single_compute_store ⟨sampleRows, emptyStore, 7⟩ 1 10 20 2000 2005 false
      false id (9/2) 2 (by decide) (by decide) (Or.inr rfl) hcomp
  exact ⟨by decide, by decide, h1,
    resolve_idempotent ⟨sampleRows, emptyStore, 7⟩ 1 10 20 2000 2005 false
      id 8 ⟨9/2, 2, false, 7⟩ _ (by decide) (by decide) h1⟩

/-- Claim C6: with force_recompute true the response never depends on
the stored record, a successful computation always overwrites the
record for the key (value, count and computed_at all replaced), and
the computed_at of the record strictly increases across successive
forced resolutions as the clock advances. -/
theorem forced_recompute_overwrite (db : DB) (r m s sy ey : Int)
    (am : Bool) (conv : ℚ → ℚ) (v : ℚ) (c : Nat)
    (hbnd : rangeWithinBounds sy ey) (hle : sy ≤ ey)
    (hcomp : compute_average db.climate_data r m s sy ey = some (v, c)) :
    (∀ st_alt : Store,
      (get_multi_year_average ⟨db.climate_data, st_alt, db.now⟩ r m s sy ey
        true am conv).1 =
      (get_multi_year_average db r m s sy ey true am conv).1) ∧
    (get_multi_year_average db r m s sy ey true am conv).1 =
      .ok ⟨applyConv am conv v, c, false, db.now⟩ ∧
    (get_multi_year_average db r m s sy ey true am conv).2
        ⟨r, m, s, sy, ey⟩ = some ⟨v, c, db.now⟩ ∧
    (∀ t2 : Nat, db.now < t2 →
      ∃ rec2 : AvgRecord,
        (get_multi_year_average
          ⟨db.climate_data,
           (get_multi_year_average db r m s sy ey true am conv).2, t2⟩
          r m s sy ey true am conv).2 ⟨r, m, s, sy, ey⟩ = some rec2 ∧
        db.now < rec2.computed_at) := by
  have H := single_compute_store db r m s sy ey true am conv v c hbnd hle
    (Or.inl rfl) hcomp
  refine ⟨?_, ?_, ?_, ?_⟩
  · intro st_alt
    have H2 := single_compute_store ⟨db.climate_data, st_alt, db.now⟩ r m s
      sy ey true am conv v c hbnd hle (Or.inl rfl) hcomp
    rw [H, H2]
  · rw [H]
  · rw [H]
    unfold store_computed_average
    simp
  · intro t2 ht2
    have H3 := single_compute_store
      ⟨db.climate_data, (get_multi_year_average db r m s sy ey true am
        conv).2, t2⟩ r m s sy ey true am conv v c hbnd hle (Or.inl rfl) hcomp
    refine ⟨⟨v, c, t2⟩, ?_, ht2⟩
    rw [H3]
    unfold store_computed_average
    simp

/-- Witness for C6: forced resolution on a store that already holds a
different record for the key. -/
theorem forced_recompute_overwrite_witness :
    rangeWithinBounds 2000 2005 ∧ ((2000 : Int) ≤ 2005) ∧
    compute_average sampleRows 1 10 20 2000 2005 = some (9/2, 2) ∧
    oneRecStore ⟨1, 10, 20, 2000, 2005⟩ = some ⟨100, 9, 3⟩ ∧
    (get_multi_year_average ⟨sampleRows, oneRecStore, 7⟩ 1 10 20 2000 2005
      true false id).2 ⟨1, 10, 20, 2000, 2005⟩ = some ⟨9/2, 2, 7⟩ := by
  have hcomp : compute_average sampleRows 1 10 20 2000 2005 = some (9/2, 2) := by
    norm_num [compute_average, rowMatches, sampleRows, List.filter, List.filterMap]
  exact ⟨by decide, by decide, hcomp, rfl,
    (forced_recompute_overwrite ⟨sampleRows, oneRecStore, 7⟩ 1 10 20 2000
      2005 false id (9/2) 2 (by decide) (by decide) hcomp).2.2.1⟩

/-- Claim C2: every successful bulk call satisfies cached_count plus
computed_count equals the number of per-region entries in the returned
data list, for every force_recompute and region filter. -/
theorem bulk_count_conservation (db : DB) (m s sy ey : Int)
    (filt : Option (List Int)) (force inc am : Bool) (conv : ℚ → ℚ)
    (resp : BulkResp) (st2 : Store)
    (h : get_multi_year_average_all_regions db m s sy ey filt force inc am
      conv = (.ok resp, st2)) :
    resp.cached_count + resp.computed_count = resp.data.length := by
  by_cases hval : rangeWithinBounds sy ey ∧ sy ≤ ey
  case neg =>
    rw [bulk_invalid_range db m s sy ey filt force inc am conv hval] at h
    simp at h
  obtain ⟨hbnd, hle⟩ := hval
  by_cases hemp : compute_all_averages db.climate_data m s sy ey = []
  · rw [bulk_computed_empty db m s sy ey filt force inc am conv hbnd hle
      hemp] at h
    simp at h
  · rw [bulk_run_eq db m s sy ey filt force inc am conv hbnd hle hemp] at h
    by_cases hdp : (bulkAcc db m s sy ey filt force am conv).data_points.isEmpty
    · rw [if_pos hdp] at h
      simp at h
    · rw [if_neg hdp] at h
      injection h with h1 h2
      injection h1 with h1
      subst h1
      have hc := mergeFold_counts am conv filt (bulkCached db m s sy ey force)
        (compute_all_averages db.climate_data m s sy ey) ⟨[], [], 0, 0⟩
      unfold bulkAcc
      dsimp only
      dsimp only at hc
      simpa using hc

/-- Witness for C2: a bulk call where both surviving regions are
served from cache. -/
theorem bulk_count_conservation_witness :
    get_multi_year_average_all_regions ⟨sampleRows, twoRecStore, 7⟩ 10 20
        2000 2005 none false false false id =
      (.ok ⟨[⟨1, 100, 9⟩, ⟨2, 200, 3⟩], none, 2, 0⟩, twoRecStore) ∧
    2 + 0 = ([⟨1, 100, 9⟩, ⟨2, 200, 3⟩] : List BulkDataPoint).length := by
  have h : get_multi_year_average_all_regions ⟨sampleRows, twoRecStore, 7⟩
      10 20 2000 2005 none false false false id =
      (.ok ⟨[⟨1, 100, 9⟩, ⟨2, 200, 3⟩], none, 2, 0⟩, twoRecStore) := by rfl
  exact ⟨h, bulk_count_conservation ⟨sampleRows, twoRecStore, 7⟩ 10 20 2000
    2005 none false false false id _ _ h⟩

/-- Claim C4: the regions of a successful bulk response are exactly
the domain of the freshly computed per-region mapping restricted to
the region filter, for every cache state and force_recompute value; a
region without current eligible samples never appears. -/
theorem bulk_region_universe (db : DB) (m s sy ey : Int)
    (filt : Option (List Int)) (force inc am : Bool) (conv : ℚ → ℚ)
    (resp : BulkResp) (st2 : Store)
    (h : get_multi_year_average_all_regions db m s sy ey filt force inc am
      conv = (.ok resp, st2)) :
    resp.data.map (·.region_id) =
      ((compute_all_averages db.climate_data m s sy ey).map (·.1)).filter
        (keepRegion filt) := by
  by_cases hval : rangeWithinBounds sy ey ∧ sy ≤ ey
  case neg =>
    rw [bulk_invalid_range db m s sy ey filt force inc am conv hval] at h
    simp at h
  obtain ⟨hbnd, hle⟩ := hval
  by_cases hemp : compute_all_averages db.climate_data m s sy ey = []
  · rw [bulk_computed_empty db m s sy ey filt force inc am conv hbnd hle
      hemp] at h
    simp at h
  · rw [bulk_run_eq db m s sy ey filt force inc am conv hbnd hle hemp] at h
    by_cases hdp : (bulkAcc db m s sy ey filt force am conv).data_points.isEmpty
    · rw [if_pos hdp] at h
      simp at h
    · rw [if_neg hdp] at h
      injection h with h1 h2
      injection h1 with h1
      subst h1
      have hr := mergeFold_regions am conv filt (bulkCached db m s sy ey force)
        (compute_all_averages db.climate_data m s sy ey) ⟨[], [], 0, 0⟩
      unfold bulkAcc
      dsimp only
      dsimp only at hr
      simpa using hr

/-- Witness for C4: the cached-but-dataless key of region 9 does not
appear in the response. -/
theorem bulk_region_universe_witness :
    get_multi_year_average_all_regions ⟨sampleRows, twoRecStore, 7⟩ 10 20
        2000 2005 none false false false id =
      (.ok ⟨[⟨1, 100, 9⟩, ⟨2, 200, 3⟩], none, 2, 0⟩, twoRecStore) ∧
    ([⟨1, 100, 9⟩, ⟨2, 200, 3⟩] : List BulkDataPoint).map (·.region_id) =
      ((compute_all_averages sampleRows 10 20 2000 2005).map (·.1)).filter
        (keepRegion none) := by
  have h : get_multi_year_average_all_regions ⟨sampleRows, twoRecStore, 7⟩
      10 20 2000 2005 none false false false id =
      (.ok ⟨[⟨1, 100, 9⟩, ⟨2, 200, 3⟩], none, 2, 0⟩, twoRecStore) := by rfl
  exact ⟨h, bulk_region_universe ⟨sampleRows, twoRecStore, 7⟩ 10 20 2000
    2005 none false false false id _ _ h⟩

/-- Claim C8: with a valid range, the bulk call fails with notFound
exactly when the computed mapping is empty or no computed region
survives the filter, and in the post-filter-empty case the store is
unchanged. -/
theorem bulk_not_found_conditions (db : DB) (m s sy ey : Int)
    (filt : Option (List Int)) (force inc am : Bool) (conv : ℚ → ℚ)
    (hbnd : rangeWithinBounds sy ey) (hle : sy ≤ ey) :
    ((get_multi_year_average_all_regions db m s sy ey filt force inc am
        conv).1 = .error .notFound ↔
      (compute_all_averages db.climate_data m s sy ey = [] ∨
        ((compute_all_averages db.climate_data m s sy ey).map (·.1)).filter
          (keepRegion filt) = [])) ∧
    (((compute_all_averages db.climate_data m s sy ey).map (·.1)).filter
        (keepRegion filt) = [] →
      (get_multi_year_average_all_regions db m s sy ey filt force inc am
        conv).2 = db.climate_averages) := by
  by_cases hemp : compute_all_averages db.climate_data m s sy ey = []
  · rw [bulk_computed_empty db m s sy ey filt force inc am conv hbnd hle hemp]
    exact ⟨by simp [hemp], fun _ => rfl⟩
  · rw [bulk_run_eq db m s sy ey filt force inc am conv hbnd hle hemp]
    dsimp only
    have hr := mergeFold_regions am conv filt (bulkCached db m s sy ey force)
      (compute_all_averages db.climate_data m s sy ey) ⟨[], [], 0, 0⟩
    simp only [List.map_nil, List.nil_append] at hr
    have hacc_eq : (bulkAcc db m s sy ey filt force am
        conv).data_points.map (·.region_id) =
        ((compute_all_averages db.climate_data m s sy ey).map (·.1)).filter
          (keepRegion filt) := by
      unfold bulkAcc
      exact hr
    have hdata : (bulkAcc db m s sy ey filt force am conv).data_points = [] ↔
        ((compute_all_averages db.climate_data m s sy ey).map (·.1)).filter
          (keepRegion filt) = [] := by
      constructor
      · intro hz
        rw [← hacc_eq, hz]
        rfl
      · intro hz
        have hmap : (bulkAcc db m s sy ey filt force am
            conv).data_points.map (·.region_id) = [] := by
          rw [hacc_eq, hz]
        exact List.map_eq_nil_iff.mp hmap
    constructor
    · constructor
      · intro herr
        right
        by_cases hdp : (bulkAcc db m s sy ey filt force am conv).data_points.isEmpty
        · exact hdata.mp (List.isEmpty_iff.mp hdp)
        · rw [if_neg hdp] at herr
          simp at herr
      · intro hdisj
        have hz : ((compute_all_averages db.climate_data m s sy ey).map
            (·.1)).filter (keepRegion filt) = [] := by
          rcases hdisj with hz | hz
          · exact absurd hz hemp
          · exact hz
        have hdp : (bulkAcc db m s sy ey filt force am conv).data_points.isEmpty := by
          rw [List.isEmpty_iff]
          exact hdata.mpr hz
        rw [if_pos hdp]
    · intro hz
      have hskip : ∀ e ∈ compute_all_averages db.climate_data m s sy ey,
          keepRegion filt e.1 = false := by
        intro e he
        have := List.filter_eq_nil_iff.mp hz e.1 (List.mem_map_of_mem _ he)
        simpa using this
      have hacc := mergeFold_skip am conv filt (bulkCached db m s sy ey force)
        (compute_all_averages db.climate_data m s sy ey) hskip ⟨[], [], 0, 0⟩
      show bulkStore db m s sy ey filt force am conv = db.climate_averages
      unfold bulkStore bulkAcc
      rw [hacc]
      rfl

/-- Witness for C8: a filter that excludes every computed region. -/
theorem bulk_not_found_conditions_witness :
    rangeWithinBounds 2000 2005 ∧ ((2000 : Int) ≤ 2005) ∧
    (((get_multi_year_average_all_regions ⟨sampleRows, twoRecStore, 7⟩ 10 20
        2000 2005 (some [99]) false true false id).1 = .error .notFound ↔
      (compute_all_averages sampleRows 10 20 2000 2005 = [] ∨
        ((compute_all_averages sampleRows 10 20 2000 2005).map (·.1)).filter
          (keepRegion (some [99])) = [])) ∧
    (((compute_all_averages sampleRows 10 20 2000 2005).map (·.1)).filter
        (keepRegion (some [99])) = [] →
      (get_multi_year_average_all_regions ⟨sampleRows, twoRecStore, 7⟩ 10 20
        2000 2005 (some [99]) false true false id).2 = twoRecStore)) :=
  ⟨by decide, by decide,
   bulk_not_found_conditions ⟨sampleRows, twoRecStore, 7⟩ 10 20 2000 2005
     (some [99]) false true false id (by decide) (by decide)⟩

/-- Claim C10: the climate_averages state after a request is the same
whatever the american flag (and conversion function, and summary
toggle): records are persisted in native units before conversion, on
both the single-key and the bulk path. -/
theorem store_independent_of_american_flag (db : DB) (r m s sy ey : Int)
    (filt : Option (List Int)) (force inc1 inc2 am1 am2 : Bool)
    (conv1 conv2 : ℚ → ℚ) :
    (get_multi_year_average db r m s sy ey force am1 conv1).2 =
      (get_multi_year_average db r m s sy ey force am2 conv2).2 ∧
    (get_multi_year_average_all_regions db m s sy ey filt force inc1 am1
      conv1).2 =
      (get_multi_year_average_all_regions db m s sy ey filt force inc2 am2
        conv2).2 := by
  by_cases hval : rangeWithinBounds sy ey ∧ sy ≤ ey
  case neg =>
    rw [single_invalid_range db r m s sy ey force am1 conv1 hval,
      single_invalid_range db r m s sy ey force am2 conv2 hval,
      bulk_invalid_range db m s sy ey filt force inc1 am1 conv1 hval,
      bulk_invalid_range db m s sy ey filt force inc2 am2 conv2 hval]
    exact ⟨rfl, rfl⟩
  obtain ⟨hbnd, hle⟩ := hval
  constructor
  · cases force with
    | true =>
      cases hcomp : compute_average db.climate_data r m s sy ey with
      | none =>
        rw [single_compute_nodata db r m s sy ey true am1 conv1 hbnd hle
          (Or.inl rfl) hcomp,
          single_compute_nodata db r m s sy ey true am2 conv2 hbnd hle
            (Or.inl rfl) hcomp]
      | some vc =>
        rw [single_compute_store db r m s sy ey true am1 conv1 vc.1 vc.2
          hbnd hle (Or.inl rfl) (by rw [hcomp]),
          single_compute_store db r m s sy ey true am2 conv2 vc.1 vc.2
            hbnd hle (Or.inl rfl) (by rw [hcomp])]
    | false =>
      cases hget : db.climate_averages ⟨r, m, s, sy, ey⟩ with
      | some rec =>
        rw [single_cache_hit db r m s sy ey am1 conv1 rec hbnd hle hget,
          single_cache_hit db r m s sy ey am2 conv2 rec hbnd hle hget]
      | none =>
        cases hcomp : compute_average db.climate_data r m s sy ey with
        | none =>
          rw [single_compute_nodata db r m s sy ey false am1 conv1 hbnd hle
            (Or.inr hget) hcomp,
            single_compute_nodata db r m s sy ey false am2 conv2 hbnd hle
              (Or.inr hget) hcomp]
        | some vc =>
          rw [single_compute_store db r m s sy ey false am1 conv1 vc.1 vc.2
            hbnd hle (Or.inr hget) (by rw [hcomp]),
            single_compute_store db r m s sy ey false am2 conv2 vc.1 vc.2
              hbnd hle (Or.inr hget) (by rw [hcomp])]
  · by_cases hemp : compute_all_averages db.climate_data m s sy ey = []
    · rw [bulk_computed_empty db m s sy ey filt force inc1 am1 conv1 hbnd
        hle hemp,
        bulk_computed_empty db m s sy ey filt force inc2 am2 conv2 hbnd
          hle hemp]
    · rw [bulk_run_eq db m s sy ey filt force inc1 am1 conv1 hbnd hle hemp,
        bulk_run_eq db m s sy ey filt force inc2 am2 conv2 hbnd hle hemp]
      dsimp only
      have hrtc : (bulkAcc db m s sy ey filt force am1 conv1).regions_to_cache =
          (bulkAcc db m s sy ey filt force am2 conv2).regions_to_cache := by
        unfold bulkAcc
        exact (mergeFold_indep filt (bulkCached db m s sy ey force) am1 am2
          conv1 conv2 (compute_all_averages db.climate_data m s sy ey)
          ⟨[], [], 0, 0⟩ ⟨[], [], 0, 0⟩ rfl rfl rfl rfl).1
      unfold bulkStore
      rw [hrtc]
